import Mathlib

/-!
Shallow embedding of the ontology-ts-sdk crypto core (PrivateKey,
SignatureScheme) and of the REST client URL construction, together with
proofs of the specification claims.

Conventions of the embedding:
* raw key material (the TypeScript hex strings fed to the crypto
  libraries) is modelled as a list of byte values (`List Nat`);
* external cryptographic libraries (`elliptic`, `sm.js`) are modelled by a
  record of primitive functions (`CryptoPrimitives`) over which the
  theorems quantify universally — the SDK only orchestrates them;
* TypeScript `throw` sites become `Except Err` results, with the error
  taxonomy of the specification (section 7).
-/

/-- Error taxonomy of the specification (section 7).  Each TypeScript
`throw new Error(...)` site is mapped to its typed kind. -/
inductive Err where
  | schemeNotFoundError
  | unknownAlgorithmError
  | schemeMismatchError
  | unsupportedAlgorithmError
  | unsupportedSchemeError
  | decryptionError
deriving DecidableEq, Repr

/-- Modelled from the spec: `KeyType` (the source file `KeyType.ts` is not
part of the provided sources) — "closed enumeration {ECDSA, EDDSA, SM2}". -/
inductive KeyType where
  | ECDSA
  | EDDSA
  | SM2
deriving DecidableEq, Repr

/-- Modelled from the spec: `CurveLabel` — "(curve identifier, underlying
curve preset) pair; immutable; associated 1:1 with a concrete curve". -/
structure CurveLabel where
  label : String
  preset : String
deriving DecidableEq, Repr

/-- Modelled from the spec: `KeyParameters` — serializable `{curve}` record. -/
structure KeyParameters where
  curve : CurveLabel
deriving DecidableEq, Repr

/-- `SignatureScheme` record: `(label, numeric code, JWS-style label)`,
from `src/crypto/SignatureScheme.ts`. -/
structure SignatureScheme where
  label : String
  hex : Nat
  labelJWS : String
deriving DecidableEq, Repr

namespace SignatureScheme

def ECDSAwithSHA224 : SignatureScheme := ⟨"ECDSAwithSHA224", 0, "ES224"⟩

def ECDSAwithSHA256 : SignatureScheme := ⟨"ECDSAwithSHA256", 1, "ES256"⟩

def ECDSAwithSHA384 : SignatureScheme := ⟨"ECDSAwithSHA384", 2, "ES384"⟩

def ECDSAwithSHA512 : SignatureScheme := ⟨"ECDSAwithSHA512", 3, "ES512"⟩

def ECDSAwithSHA3_224 : SignatureScheme := ⟨"ECDSAwithSHA3-224", 4, "ES3-224"⟩

def ECDSAwithSHA3_256 : SignatureScheme := ⟨"ECDSAwithSHA3-256", 5, "ES3-256"⟩

def ECDSAwithSHA3_384 : SignatureScheme := ⟨"ECDSAwithSHA3-384", 6, "ES3-384"⟩

def ECDSAwithSHA3_512 : SignatureScheme := ⟨"ECDSAwithSHA3-512", 7, "ES3-512"⟩

def ECDSAwithRIPEMD160 : SignatureScheme := ⟨"ECDSAwithRIPEMD160", 8, "ER160"⟩

def SM2withSM3 : SignatureScheme := ⟨"SM2withSM3", 9, "SM"⟩

def EDDSAwithSHA512 : SignatureScheme := ⟨"EDDSAwithSHA512", 10, "EDS512"⟩

/-- The registry `SignatureScheme.values`, populated in construction order
by the constructor (`SignatureScheme.values.push(this)`). -/
def values : List SignatureScheme :=
  [ECDSAwithSHA224, ECDSAwithSHA256, ECDSAwithSHA384, ECDSAwithSHA512,
   ECDSAwithSHA3_224, ECDSAwithSHA3_256, ECDSAwithSHA3_384, ECDSAwithSHA3_512,
   ECDSAwithRIPEMD160, SM2withSM3, EDDSAwithSHA512]

/-- `SignatureScheme.fromHex`: linear scan of `values` for a record with the
given numeric code; `throw new Error('Enum value not found')` on no match. -/
def fromHex (hex : Nat) : Except Err SignatureScheme :=
  match values.find? (fun v => v.hex == hex) with
  | some item => .ok item
  | none => .error .schemeNotFoundError

/-- `SignatureScheme.fromLabel`: linear scan of `values` by `label`. -/
def fromLabel (label : String) : Except Err SignatureScheme :=
  match values.find? (fun v => v.label == label) with
  | some item => .ok item
  | none => .error .schemeNotFoundError

/-- `SignatureScheme.fromLabelJWS`: linear scan of `values` by `labelJWS`. -/
def fromLabelJWS (label : String) : Except Err SignatureScheme :=
  match values.find? (fun v => v.labelJWS == label) with
  | some item => .ok item
  | none => .error .schemeNotFoundError

/-- The nine schemes of the `case` fall-through group dispatched to
`computeEcDSASignature` in `PrivateKey.computeSignature`. -/
def ecdsaFamily : List SignatureScheme :=
  [ECDSAwithSHA224, ECDSAwithSHA256, ECDSAwithSHA384, ECDSAwithSHA512,
   ECDSAwithSHA3_224, ECDSAwithSHA3_256, ECDSAwithSHA3_384, ECDSAwithSHA3_512,
   ECDSAwithRIPEMD160]

end SignatureScheme

/-- One hex digit character for a value `n < 16` (lower case, as produced
by `Buffer.toString('hex')`). -/
def hexDigitChar (n : Nat) : Char :=
  if n < 10 then Char.ofNat (48 + n) else Char.ofNat (87 + n % 16)

/-- Hex encoding of one byte: two hex digit characters. -/
def byteToHexChars (b : Nat) : List Char :=
  [hexDigitChar (b / 16 % 16), hexDigitChar (b % 16)]

/-- Hex encoding of a byte list (`ab2hexstring` / `Buffer.toString('hex')`). -/
def bytesToHex (l : List Nat) : String :=
  ⟨l.foldr (fun b acc => byteToHexChars b ++ acc) []⟩

/-- Value of one hex digit character. -/
def hexCharVal (c : Char) : Nat :=
  if 48 ≤ c.toNat ∧ c.toNat ≤ 57 then c.toNat - 48
  else if 97 ≤ c.toNat ∧ c.toNat ≤ 102 then c.toNat - 87
  else if 65 ≤ c.toNat ∧ c.toNat ≤ 70 then c.toNat - 55
  else 0

/-- `hexstring2ab`: decode a hex string into its byte list, consuming two
hex digits per byte (from `utils`). -/
def hexstring2abAux : List Char → List Nat
  | c1 :: c2 :: rest => (hexCharVal c1 * 16 + hexCharVal c2) :: hexstring2abAux rest
  | _ => []

def hexstring2ab (s : String) : List Nat := hexstring2abAux s.data

/-- UTF-8 byte sequence of one character. -/
def charUTF8Bytes (c : Char) : List Nat :=
  let n := c.toNat
  if n < 128 then [n]
  else if n < 2048 then [192 + n / 64, 128 + n % 64]
  else if n < 65536 then [224 + n / 4096, 128 + n / 64 % 64, 128 + n % 64]
  else [240 + n / 262144, 128 + n / 4096 % 64, 128 + n / 64 % 64, 128 + n % 64]

/-- UTF-8 byte sequence of a string. -/
def strUTF8Bytes (s : String) : List Nat :=
  s.data.foldr (fun c acc => charUTF8Bytes c ++ acc) []

/-- `str2hexstr` (from `utils`): hex encoding of the bytes of a string. -/
def str2hexstr (s : String) : String := bytesToHex (strUTF8Bytes s)

/-- Big-endian byte encoding of a natural number padded to `len` bytes
(`BN.toArrayLike(Buffer, 'be', len)`). -/
def natToBytesBE (len : Nat) (n : Nat) : List Nat :=
  (List.range len).map (fun i => n / 256 ^ (len - 1 - i) % 256)

/-- Modelled from the spec: `DEFAULT_SM2_ID` (from `consts`, not part of the
provided sources) — "the fixed SM2 user identity string". -/
def DEFAULT_SM2_ID : String := "1234567812345678"

/-- The external cryptographic libraries (`elliptic`, `sm.js`) and the hash
functions used by `Key.computeHash`, modelled as an abstract record of
primitives: the SDK core only orchestrates them, and every theorem below
quantifies over all implementations.

* `ecDerive curvePreset keyBytes` — `elliptic.ec(...).keyFromPrivate(key).getPublic(true, 'hex')`;
* `edDerive curvePreset keyBytes` — the analogous EdDSA public-key derivation;
* `sm2Derive keyBytes` — `sm2.SM2KeyPair(null, key).pubToString('compress')`;
* `ecSign curvePreset keyBytes hash` — the `(r, s)` pair of `elliptic.ec(...).sign`;
* `edSign curvePreset keyBytes hash` — the `(R, S)` pair of `elliptic.eddsa(...).sign`;
* `sm2Sign keyBytes hashBytes` — the `(r, s)` native string pair of `sm.js` signing;
* `hashFn scheme msg` — `Key.computeHash`, the scheme's hash of the message. -/
structure CryptoPrimitives where
  ecDerive : String → List Nat → String
  edDerive : String → List Nat → String
  sm2Derive : List Nat → String
  ecSign : String → List Nat → String → Nat × Nat
  edSign : String → List Nat → String → Nat × Nat
  sm2Sign : List Nat → List Nat → String × String
  hashFn : SignatureScheme → String → String

/-- `PublicKey`: raw key material plus algorithm identity (`Key` fields). -/
structure PublicKey where
  key : String
  algorithm : KeyType
  parameters : KeyParameters
deriving DecidableEq, Repr

/-- `PrivateKey` (plaintext form): raw key bytes plus algorithm identity. -/
structure PrivateKey where
  key : List Nat
  algorithm : KeyType
  parameters : KeyParameters
deriving DecidableEq, Repr

/-- `Signature` value object: `(scheme, signature hex string, optional
public key id)`. -/
structure Signature where
  algorithm : SignatureScheme
  value : String
  publicKeyId : Option String
deriving DecidableEq, Repr

/-- Modelled from the spec: the per-scheme compatibility table of
`Key.isSchemaSupported` (the `Key` base class is not part of the provided
sources) — "Exactly one KeyType is compatible with each scheme (ECDSA-family
schemes require KeyType=ECDSA, etc.); compatibility is a static table". -/
def requiredKeyType (s : SignatureScheme) : Option KeyType :=
  if s ∈ SignatureScheme.ecdsaFamily then some .ECDSA
  else if s = .EDDSAwithSHA512 then some .EDDSA
  else if s = .SM2withSM3 then some .SM2
  else none

/-- Modelled from the spec: `Key.isSchemaSupported` — "a Key's
SignatureScheme operations are only valid if scheme's required KeyType
equals key.algorithm". -/
def isSchemaSupported (algorithm : KeyType) (s : SignatureScheme) : Bool :=
  requiredKeyType s == some algorithm

/-- Modelled from the spec: the KeyType's configured default scheme
("If scheme omitted, use the KeyType's configured default scheme"). -/
def defaultSchema : KeyType → SignatureScheme
  | .ECDSA => .ECDSAwithSHA256
  | .EDDSA => .EDDSAwithSHA512
  | .SM2 => .SM2withSM3

namespace PrivateKey

/-- `PrivateKey.getEcDSAPublicKey`: derive through `elliptic.ec` from the
curve preset, compressed hex encoding; same algorithm and parameters. -/
def getEcDSAPublicKey (prims : CryptoPrimitives) (k : PrivateKey) : PublicKey :=
  ⟨prims.ecDerive k.parameters.curve.preset k.key, k.algorithm, k.parameters⟩

/-- `PrivateKey.getEdDSAPublicKey`: derive through `elliptic.eddsa`. -/
def getEdDSAPublicKey (prims : CryptoPrimitives) (k : PrivateKey) : PublicKey :=
  ⟨prims.edDerive k.parameters.curve.preset k.key, k.algorithm, k.parameters⟩

/-- `PrivateKey.getSM2PublicKey`: derive through `sm.js`. -/
def getSM2PublicKey (prims : CryptoPrimitives) (k : PrivateKey) : PublicKey :=
  ⟨prims.sm2Derive k.key, k.algorithm, k.parameters⟩

/-- `PrivateKey.getPublicKey`: dispatch on the key's algorithm.  Under the
specification's closed `KeyType` enumeration {ECDSA, EDDSA, SM2} the three
cases are exhaustive, so the `default: throw new Error('Unsupported
signature schema.')` branch of the source switch is unreachable. -/
def getPublicKey (prims : CryptoPrimitives) (k : PrivateKey) : PublicKey :=
  match k.algorithm with
  | .ECDSA => k.getEcDSAPublicKey prims
  | .EDDSA => k.getEdDSAPublicKey prims
  | .SM2 => k.getSM2PublicKey prims

/-- `PrivateKey.computeEcDSASignature`: `(r, s)` from `elliptic`, each
encoded as 32 big-endian zero-padded bytes, concatenated, hex-encoded. -/
def computeEcDSASignature (prims : CryptoPrimitives) (k : PrivateKey) (hash : String) : String :=
  let signed := prims.ecSign k.parameters.curve.preset k.key hash
  bytesToHex (natToBytesBE 32 signed.1 ++ natToBytesBE 32 signed.2)

/-- `PrivateKey.computeEdDSASignature`: `(R, S)` from `elliptic.eddsa`,
each 32 big-endian bytes, concatenated, hex-encoded. -/
def computeEdDSASignature (prims : CryptoPrimitives) (k : PrivateKey) (hash : String) : String :=
  let signed := prims.edSign k.parameters.curve.preset k.key hash
  bytesToHex (natToBytesBE 32 signed.1 ++ natToBytesBE 32 signed.2)

/-- `PrivateKey.computeSM2Signature`: sign the hash bytes with `sm.js`;
the result is `str2hexstr(DEFAULT_SM2_ID + '\0') + signed.r + signed.s`. -/
def computeSM2Signature (prims : CryptoPrimitives) (k : PrivateKey) (hash : String) : String :=
  let signed := prims.sm2Sign k.key (hexstring2ab hash)
  str2hexstr (DEFAULT_SM2_ID ++ String.singleton (Char.ofNat 0)) ++ signed.1 ++ signed.2

/-- `PrivateKey.computeSignature`: switch on the scheme; the nine
ECDSA-family cases fall through to `computeEcDSASignature`, `EDDSAwithSHA512`
to `computeEdDSASignature`, `SM2withSM3` to `computeSM2Signature`; any other
scheme hits `default: throw new Error('Unsupported signature schema.')`. -/
def computeSignature (prims : CryptoPrimitives) (k : PrivateKey) (hash : String)
    (schema : SignatureScheme) : Except Err String :=
  if schema ∈ SignatureScheme.ecdsaFamily then
    .ok (k.computeEcDSASignature prims hash)
  else if schema = .EDDSAwithSHA512 then
    .ok (k.computeEdDSASignature prims hash)
  else if schema = .SM2withSM3 then
    .ok (k.computeSM2Signature prims hash)
  else
    .error .unsupportedSchemeError

/-- `PrivateKey.sign`: default the scheme from the key type when omitted,
validate compatibility (`SchemeMismatchError` on failure) before computing
the hash, then dispatch the signature computation and wrap the result. -/
def sign (prims : CryptoPrimitives) (k : PrivateKey) (msg : String)
    (schema : Option SignatureScheme) (publicKeyId : Option String) : Except Err Signature :=
  let schema := match schema with
    | none => defaultSchema k.algorithm
    | some s => s
  if ¬ isSchemaSupported k.algorithm schema then
    .error .schemeMismatchError
  else
    let hash := prims.hashFn schema msg
    match k.computeSignature prims hash schema with
    | .ok signed => .ok ⟨schema, signed, publicKeyId⟩
    | .error e => .error e

end PrivateKey

/-- Modelled from the spec: scrypt cost parameters ("configurable cost
parameters, defaulted if omitted"); the `scrypt` module is not part of the
provided sources. -/
structure ScryptParams where
  cost : Nat
  blockSize : Nat
  parallel : Nat
  size : Nat
deriving DecidableEq, Repr

/-- Modelled from the spec: the default scrypt cost parameters. -/
def DEFAULT_SCRYPT : ScryptParams := ⟨16384, 8, 8, 64⟩

/-- Modelled from the spec: the scrypt key-derivation function — "derives a
symmetric key from passphrase via the scrypt key-derivation function".  Its
internals are external to the core ("its own parameter/format contract is
external"); it is modelled as a concrete deterministic function of the
passphrase bytes and the cost parameters. -/
def scryptKdf (keyphrase : String) (params : ScryptParams) : Nat :=
  (strUTF8Bytes keyphrase).foldl (fun a b => a * 257 + b + 1)
    (params.cost * 65537 + params.blockSize * 131 + params.parallel * 17 + params.size)

/-- Modelled from the spec: the symmetric stream cipher keyed by the derived
symmetric key; encryption and decryption are the same XOR operation, so
"derives the same symmetric key, decrypts to recover candidate plaintext
key bytes" holds by construction. -/
def xorStream (symKey : Nat) : List Nat → List Nat
  | [] => []
  | b :: bs => (b ^^^ symKey % 256) :: xorStream (symKey / 256 + symKey % 256 + 1) bs

/-- Modelled from the spec: the authenticity anchor derived from the public
key at encryption time ("binds the ciphertext to the public key (derived
fresh from this) as an authenticity anchor"), modelled as a deterministic
digest of the public key string. -/
def anchorOf (publicKey : String) : Nat :=
  (strUTF8Bytes publicKey).foldl (fun a b => a * 131 + b + 7) 5381

/-- Modelled from the spec: the ciphertext value stored in the encrypted
PrivateKey's `key` field: the encrypted payload bound to the public-key
anchor. -/
structure EncryptedKeyData where
  payload : List Nat
  anchor : Nat
deriving DecidableEq, Repr

namespace scrypt

/-- Modelled from the spec: `scrypt.encrypt(privateKey, publicKey,
keyphrase, params)` — derive the symmetric key from the passphrase, encrypt
the private key bytes, and embed the public-key anchor. -/
def encrypt (privateKey : List Nat) (publicKey : String) (keyphrase : String)
    (params : ScryptParams) : EncryptedKeyData :=
  ⟨xorStream (scryptKdf keyphrase params) privateKey, anchorOf publicKey⟩

/-- Modelled from the spec: `scrypt.decrypt(encrypted, keyphrase, params)`
— derive the same symmetric key and decrypt the payload. -/
def decrypt (encrypted : EncryptedKeyData) (keyphrase : String)
    (params : ScryptParams) : List Nat :=
  xorStream (scryptKdf keyphrase params) encrypted.payload

/-- Modelled from the spec: `scrypt.checkDecrypted(encrypted, publicKey)` —
compare the anchor recomputed from the candidate's derived public key with
the anchor embedded in the ciphertext; `DecryptionError` on mismatch. -/
def checkDecrypted (encrypted : EncryptedKeyData) (publicKey : String) : Except Err Unit :=
  if anchorOf publicKey = encrypted.anchor then .ok () else .error .decryptionError

end scrypt

/-- The result of `PrivateKey.encrypt`: in the source it is a `PrivateKey`
whose `key` field holds ciphertext instead of plaintext scalar bytes, with
KeyType and KeyParameters carried through unchanged. -/
structure EncryptedPrivateKey where
  key : EncryptedKeyData
  algorithm : KeyType
  parameters : KeyParameters
deriving DecidableEq, Repr

namespace PrivateKey

/-- `PrivateKey.encrypt`: `encrypt(this.key, this.getPublicKey().key,
keyphrase, params)`, wrapped with the unchanged algorithm and parameters. -/
def encrypt (prims : CryptoPrimitives) (k : PrivateKey) (keyphrase : String)
    (params : ScryptParams) : EncryptedPrivateKey :=
  let encrypted := scrypt.encrypt k.key (k.getPublicKey prims).key keyphrase params
  ⟨encrypted, k.algorithm, k.parameters⟩

/-- `PrivateKey.decrypt`: decrypt the ciphertext, construct the candidate
`PrivateKey`, then `checkDecrypted(this.key, decryptedKey.getPublicKey().key)`
before returning the candidate. -/
def decrypt (prims : CryptoPrimitives) (ek : EncryptedPrivateKey) (keyphrase : String)
    (params : ScryptParams) : Except Err PrivateKey :=
  let decrypted := scrypt.decrypt ek.key keyphrase params
  let decryptedKey : PrivateKey := ⟨decrypted, ek.algorithm, ek.parameters⟩
  match scrypt.checkDecrypted ek.key (decryptedKey.getPublicKey prims).key with
  | .ok _ => .ok decryptedKey
  | .error e => .error e

end PrivateKey

/-- Unreserved characters of `encodeURIComponent`: alphanumeric and
`- _ . ! ~ * ' ( )`. -/
def isUnreservedURIChar (c : Char) : Bool :=
  c.isAlphanum || c = '-' || c = '_' || c = '.' || c = '!' || c = '~' ||
    c = '*' || c = Char.ofNat 39 || c = '(' || c = ')'

/-- Percent-encoding of one byte: `%XX` with upper-case hex digits. -/
def percentEncodeByte (b : Nat) : List Char :=
  ['%',
   (if b / 16 % 16 < 10 then Char.ofNat (48 + b / 16 % 16) else Char.ofNat (55 + b / 16 % 16)),
   (if b % 16 < 10 then Char.ofNat (48 + b % 16) else Char.ofNat (55 + b % 16 % 16))]

/-- JavaScript `encodeURIComponent`: unreserved characters pass through,
all others are percent-encoded byte-wise over their UTF-8 encoding. -/
def encodeURIComponent (s : String) : String :=
  ⟨s.data.foldr
    (fun c acc =>
      (if isUnreservedURIChar c then [c]
       else (charUTF8Bytes c).foldr (fun b a => percentEncodeByte b ++ a) []) ++ acc)
    []⟩

/-- Modelled from the spec: the REST endpoint path constant
`UrlConsts.Url_send_transaction` (the `urlConsts` module is not part of the
provided sources; the claims do not depend on its value). -/
def Url_send_transaction : String := "/api/v1/transaction"

/-- `RestClient` state: the base node URL. -/
structure RestClient where
  url : String
deriving DecidableEq, Repr

namespace RestClient

/-- `RestClient.concatParams`: empty map yields the empty string; otherwise
fold the entries into `&key=value` segments (values passed through
`encodeURIComponent` when truthy, i.e. non-empty), drop the leading `&` via
`substr(1)` and prepend `?`.  JavaScript `Map` iterates in insertion order,
so the map is modelled as the association list in insertion order. -/
def concatParams (params : List (String × String)) : String :=
  if params.length = 0 then ""
  else
    let result := params.foldl
      (fun acc kv =>
        let value := if kv.2 = "" then kv.2 else encodeURIComponent kv.2
        acc ++ "&" ++ kv.1 ++ "=" ++ value)
      ""
    "?" ++ result.drop 1

/-- The URL constructed by `RestClient.sendRawTransaction`: optional
`userid` entry when `userId` is truthy, then `preExec` set to the literal
string `'1'` unconditionally; the request URL is the base URL, the send
path, and the concatenated parameters.  The body and the HTTP POST are
outside the URL construction. -/
def sendRawTransactionUrl (c : RestClient) (hexData : String) (preExec : Bool)
    (userId : Option String) : String :=
  let param : List (String × String) :=
    (match userId with
     | some uid => if uid = "" then [] else [("userid", uid)]
     | none => []) ++ [("preExec", "1")]
  c.url ++ Url_send_transaction ++ concatParams param

end RestClient

/-- A concrete instantiation of the external crypto libraries, used only to
witness the theorems below at evaluable inputs. -/
def trivialPrimitives : CryptoPrimitives where
  ecDerive := fun _ k => bytesToHex k
  edDerive := fun _ k => bytesToHex k
  sm2Derive := fun k => bytesToHex k
  ecSign := fun _ k _ => (k.foldl (· + ·) 1, 2)
  edSign := fun _ k _ => (k.foldl (· + ·) 3, 4)
  sm2Sign := fun _ _ => ("0102", "0304")
  hashFn := fun _ m => m

/-- A concrete key-parameters value for witnesses. -/
def p256Params : KeyParameters := ⟨⟨"P-256", "p256"⟩⟩

/-- A scheme found by a registry scan is a member of the registry and
satisfies the scan predicate. -/
theorem registry_find_ok {p : SignatureScheme → Bool} {v : SignatureScheme}
    (hfind : SignatureScheme.values.find? p = some v) :
    v ∈ SignatureScheme.values ∧ p v = true :=
  ⟨List.mem_of_find?_eq_some hfind, List.find?_some hfind⟩

/-- C8: `SignatureScheme.fromHex 1` returns the record with label
`"ECDSAwithSHA256"` and JWS label `"ES256"`, and
`SignatureScheme.fromLabel "SM2withSM3"` returns the record with numeric
code 9. -/
theorem spec_C8_registry_lookup_values :
    SignatureScheme.fromHex 1 = .ok SignatureScheme.ECDSAwithSHA256 ∧
    SignatureScheme.ECDSAwithSHA256.label = "ECDSAwithSHA256" ∧
    SignatureScheme.ECDSAwithSHA256.labelJWS = "ES256" ∧
    SignatureScheme.fromLabel "SM2withSM3" = .ok SignatureScheme.SM2withSM3 ∧
    SignatureScheme.SM2withSM3.hex = 9 := by
  refine ⟨?_, rfl, rfl, ?_, rfl⟩ <;> rfl

/-- C7: each of `fromHex`, `fromLabel`, `fromLabelJWS` scans the registry
and fails with `SchemeNotFoundError` exactly when no registered scheme
matches the argument; any returned scheme is a registered scheme matching
the argument exactly (no partial matching, no default). -/
theorem spec_C7_registry_lookup_scan :
    (∀ h, (∀ s ∈ SignatureScheme.values, s.hex ≠ h) →
      SignatureScheme.fromHex h = .error .schemeNotFoundError) ∧
    (∀ h s, SignatureScheme.fromHex h = .ok s →
      s ∈ SignatureScheme.values ∧ s.hex = h) ∧
    (∀ l, (∀ s ∈ SignatureScheme.values, s.label ≠ l) →
      SignatureScheme.fromLabel l = .error .schemeNotFoundError) ∧
    (∀ l s, SignatureScheme.fromLabel l = .ok s →
      s ∈ SignatureScheme.values ∧ s.label = l) ∧
    (∀ l, (∀ s ∈ SignatureScheme.values, s.labelJWS ≠ l) →
      SignatureScheme.fromLabelJWS l = .error .schemeNotFoundError) ∧
    (∀ l s, SignatureScheme.fromLabelJWS l = .ok s →
      s ∈ SignatureScheme.values ∧ s.labelJWS = l) := by
  refine ⟨?_, ?_, ?_, ?_, ?_, ?_⟩
  · intro h hne
    unfold SignatureScheme.fromHex
    have hnone : SignatureScheme.values.find? (fun v => v.hex == h) = none := by
      rw [List.find?_eq_none]
      intro x hx
      simpa using hne x hx
    rw [hnone]
  · intro h s heq
    unfold SignatureScheme.fromHex at heq
    cases hfind : SignatureScheme.values.find? (fun v => v.hex == h) with
    | none => rw [hfind] at heq; cases heq
    | some v =>
      rw [hfind] at heq
      cases heq
      have := registry_find_ok hfind
      exact ⟨this.1, by simpa using this.2⟩
  · intro l hne
    unfold SignatureScheme.fromLabel
    have hnone : SignatureScheme.values.find? (fun v => v.label == l) = none := by
      rw [List.find?_eq_none]
      intro x hx
      simpa using hne x hx
    rw [hnone]
  · intro l s heq
    unfold SignatureScheme.fromLabel at heq
    cases hfind : SignatureScheme.values.find? (fun v => v.label == l) with
    | none => rw [hfind] at heq; cases heq
    | some v =>
      rw [hfind] at heq
      cases heq
      have := registry_find_ok hfind
      exact ⟨this.1, by simpa using this.2⟩
  · intro l hne
    unfold SignatureScheme.fromLabelJWS
    have hnone : SignatureScheme.values.find? (fun v => v.labelJWS == l) = none := by
      rw [List.find?_eq_none]
      intro x hx
      simpa using hne x hx
    rw [hnone]
  · intro l s heq
    unfold SignatureScheme.fromLabelJWS at heq
    cases hfind : SignatureScheme.values.find? (fun v => v.labelJWS == l) with
    | none => rw [hfind] at heq; cases heq
    | some v =>
      rw [hfind] at heq
      cases heq
      have := registry_find_ok hfind
      exact ⟨this.1, by simpa using this.2⟩

/-- Witness for C7 at concrete inputs: code 42 and the label/JWS-label
`"nope"` are unregistered and fail; code 2 is found and matches exactly. -/
theorem spec_C7_registry_lookup_scan_witness :
    SignatureScheme.fromHex 42 = .error .schemeNotFoundError ∧
    (SignatureScheme.ECDSAwithSHA384 ∈ SignatureScheme.values ∧
      SignatureScheme.ECDSAwithSHA384.hex = 2) ∧
    SignatureScheme.fromLabel "nope" = .error .schemeNotFoundError ∧
    SignatureScheme.fromLabelJWS "nope" = .error .schemeNotFoundError :=
  ⟨spec_C7_registry_lookup_scan.1 42 (by decide),
   spec_C7_registry_lookup_scan.2.1 2 SignatureScheme.ECDSAwithSHA384 (by rfl),
   spec_C7_registry_lookup_scan.2.2.1 "nope" (by decide),
   spec_C7_registry_lookup_scan.2.2.2.2.1 "nope" (by decide)⟩

/-- C9: every scheme in the populated registry is dispatched by
`computeSignature` to exactly one of the ECDSA, EdDSA or SM2 signing
paths; the `default` branch throwing the unsupported-scheme error is never
reached for a registered scheme. -/
theorem spec_C9_registered_schemes_dispatch (prims : CryptoPrimitives)
    (k : PrivateKey) (hash : String) :
    ∀ s ∈ SignatureScheme.values,
      k.computeSignature prims hash s = .ok (k.computeEcDSASignature prims hash) ∨
      k.computeSignature prims hash s = .ok (k.computeEdDSASignature prims hash) ∨
      k.computeSignature prims hash s = .ok (k.computeSM2Signature prims hash) := by
  intro s hs
  fin_cases hs <;>
    first
      | exact Or.inl rfl
      | exact Or.inr (Or.inl rfl)
      | exact Or.inr (Or.inr rfl)

/-- Witness for C9 at a concrete scheme: `SM2withSM3` is registered and is
dispatched to one of the three family paths. -/
theorem spec_C9_registered_schemes_dispatch_witness :
    (PrivateKey.mk [1, 2, 3] .SM2 p256Params).computeSignature trivialPrimitives "00"
        SignatureScheme.SM2withSM3 =
      .ok ((PrivateKey.mk [1, 2, 3] .SM2 p256Params).computeEcDSASignature trivialPrimitives "00") ∨
    (PrivateKey.mk [1, 2, 3] .SM2 p256Params).computeSignature trivialPrimitives "00"
        SignatureScheme.SM2withSM3 =
      .ok ((PrivateKey.mk [1, 2, 3] .SM2 p256Params).computeEdDSASignature trivialPrimitives "00") ∨
    (PrivateKey.mk [1, 2, 3] .SM2 p256Params).computeSignature trivialPrimitives "00"
        SignatureScheme.SM2withSM3 =
      .ok ((PrivateKey.mk [1, 2, 3] .SM2 p256Params).computeSM2Signature trivialPrimitives "00") :=
  spec_C9_registered_schemes_dispatch trivialPrimitives
    (PrivateKey.mk [1, 2, 3] .SM2 p256Params) "00" SignatureScheme.SM2withSM3 (by decide)

/-- C2: whenever the scheme's required KeyType differs from the key's
algorithm, `sign` fails with `SchemeMismatchError`.  The theorem holds for
every `CryptoPrimitives` record — the result does not depend on the hash
function or on any signer, so the compatibility check happens before any
hashing or signature computation. -/
theorem spec_C2_sign_scheme_mismatch (prims : CryptoPrimitives) (k : PrivateKey)
    (s : SignatureScheme) (msg : String) (pid : Option String)
    (h : requiredKeyType s ≠ some k.algorithm) :
    k.sign prims msg (some s) pid = .error .schemeMismatchError := by
  have hsup : isSchemaSupported k.algorithm s = false := by
    unfold isSchemaSupported
    simpa using h
  unfold PrivateKey.sign
  simp [hsup]

/-- Witness for C2: an EdDSA key refuses the ECDSA-with-SHA256 scheme. -/
theorem spec_C2_sign_scheme_mismatch_witness :
    (PrivateKey.mk [7] .EDDSA p256Params).sign trivialPrimitives "0011"
        (some SignatureScheme.ECDSAwithSHA256) none =
      .error .schemeMismatchError :=
  spec_C2_sign_scheme_mismatch trivialPrimitives (PrivateKey.mk [7] .EDDSA p256Params)
    SignatureScheme.ECDSAwithSHA256 "0011" none (by decide)

/-- The hex encoding of a byte list has two characters per byte. -/
theorem bytesToHex_length (l : List Nat) : (bytesToHex l).length = 2 * l.length := by
  show (l.foldr (fun b acc => byteToHexChars b ++ acc) []).length = 2 * l.length
  induction l with
  | nil => rfl
  | cons b bs ih =>
    show (byteToHexChars b ++ bs.foldr (fun b acc => byteToHexChars b ++ acc) []).length =
      2 * (b :: bs).length
    rw [List.length_append, ih]
    simp [byteToHexChars]
    omega

/-- `natToBytesBE len n` always has exactly `len` bytes. -/
theorem natToBytesBE_length (len n : Nat) : (natToBytesBE len n).length = len := by
  simp [natToBytesBE]

/-- C3: for every ECDSA-family scheme compatible with the key, `sign`
succeeds and its signature value is the hex encoding of the 32-byte
big-endian zero-padded `r` concatenated with the 32-byte big-endian
zero-padded `s` — exactly 128 hex characters (64 bytes), never
variable-length DER. -/
theorem spec_C3_ecdsa_fixed_width_encoding (prims : CryptoPrimitives) (k : PrivateKey)
    (msg : String) (pid : Option String) (s : SignatureScheme)
    (hfam : s ∈ SignatureScheme.ecdsaFamily) (halg : k.algorithm = .ECDSA) :
    k.sign prims msg (some s) pid =
      .ok ⟨s,
        bytesToHex
          (natToBytesBE 32 (prims.ecSign k.parameters.curve.preset k.key (prims.hashFn s msg)).1 ++
           natToBytesBE 32 (prims.ecSign k.parameters.curve.preset k.key (prims.hashFn s msg)).2),
        pid⟩ ∧
    (bytesToHex
      (natToBytesBE 32 (prims.ecSign k.parameters.curve.preset k.key (prims.hashFn s msg)).1 ++
       natToBytesBE 32 (prims.ecSign k.parameters.curve.preset k.key (prims.hashFn s msg)).2)).length
      = 128 := by
  constructor
  · have hsup : isSchemaSupported k.algorithm s = true := by
      unfold isSchemaSupported requiredKeyType
      simp [hfam, halg]
    unfold PrivateKey.sign
    simp [hsup]
    unfold PrivateKey.computeSignature
    simp [hfam]
    rfl
  · rw [bytesToHex_length, List.length_append, natToBytesBE_length, natToBytesBE_length]

/-- Witness for C3 at a concrete ECDSA key, scheme and primitives. -/
theorem spec_C3_ecdsa_fixed_width_encoding_witness :
    (PrivateKey.mk [1, 2] .ECDSA p256Params).sign trivialPrimitives "0011"
        (some SignatureScheme.ECDSAwithSHA256) none =
      .ok ⟨SignatureScheme.ECDSAwithSHA256,
        bytesToHex
          (natToBytesBE 32 (trivialPrimitives.ecSign p256Params.curve.preset [1, 2]
              (trivialPrimitives.hashFn SignatureScheme.ECDSAwithSHA256 "0011")).1 ++
           natToBytesBE 32 (trivialPrimitives.ecSign p256Params.curve.preset [1, 2]
              (trivialPrimitives.hashFn SignatureScheme.ECDSAwithSHA256 "0011")).2),
        none⟩ ∧
    (bytesToHex
      (natToBytesBE 32 (trivialPrimitives.ecSign p256Params.curve.preset [1, 2]
          (trivialPrimitives.hashFn SignatureScheme.ECDSAwithSHA256 "0011")).1 ++
       natToBytesBE 32 (trivialPrimitives.ecSign p256Params.curve.preset [1, 2]
          (trivialPrimitives.hashFn SignatureScheme.ECDSAwithSHA256 "0011")).2)).length = 128 :=
  spec_C3_ecdsa_fixed_width_encoding trivialPrimitives
    (PrivateKey.mk [1, 2] .ECDSA p256Params) "0011" none
    SignatureScheme.ECDSAwithSHA256 (by decide) rfl

/-- C4: for the `SM2withSM3` scheme on an SM2 key, the signature value is
the hex encoding of the fixed SM2 user identity string followed by a NUL
byte, then `r` and `s` concatenated in their native string form (no
fixed-width padding). -/
theorem spec_C4_sm2_signature_encoding (prims : CryptoPrimitives) (k : PrivateKey)
    (msg : String) (pid : Option String) (halg : k.algorithm = .SM2) :
    k.sign prims msg (some SignatureScheme.SM2withSM3) pid =
      .ok ⟨SignatureScheme.SM2withSM3,
        str2hexstr (DEFAULT_SM2_ID ++ String.singleton (Char.ofNat 0)) ++
          (prims.sm2Sign k.key (hexstring2ab (prims.hashFn SignatureScheme.SM2withSM3 msg))).1 ++
          (prims.sm2Sign k.key (hexstring2ab (prims.hashFn SignatureScheme.SM2withSM3 msg))).2,
        pid⟩ := by
  have hsup : isSchemaSupported k.algorithm SignatureScheme.SM2withSM3 = true := by
    unfold isSchemaSupported requiredKeyType
    simp [halg]
    decide
  unfold PrivateKey.sign
  simp [hsup]
  unfold PrivateKey.computeSignature
  have hnotfam : SignatureScheme.SM2withSM3 ∉ SignatureScheme.ecdsaFamily := by decide
  have hnoted : SignatureScheme.SM2withSM3 ≠ SignatureScheme.EDDSAwithSHA512 := by decide
  simp [hnotfam, hnoted]
  rfl

/-- Witness for C4 at a concrete SM2 key and primitives. -/
theorem spec_C4_sm2_signature_encoding_witness :
    (PrivateKey.mk [5] .SM2 p256Params).sign trivialPrimitives "abcd"
        (some SignatureScheme.SM2withSM3) none =
      .ok ⟨SignatureScheme.SM2withSM3,
        str2hexstr (DEFAULT_SM2_ID ++ String.singleton (Char.ofNat 0)) ++
          (trivialPrimitives.sm2Sign [5]
            (hexstring2ab (trivialPrimitives.hashFn SignatureScheme.SM2withSM3 "abcd"))).1 ++
          (trivialPrimitives.sm2Sign [5]
            (hexstring2ab (trivialPrimitives.hashFn SignatureScheme.SM2withSM3 "abcd"))).2,
        none⟩ :=
  spec_C4_sm2_signature_encoding trivialPrimitives (PrivateKey.mk [5] .SM2 p256Params)
    "abcd" none rfl

/-- C6: for every private key whose KeyType is one of ECDSA, EDDSA, SM2
(all KeyTypes of the closed enumeration), `getPublicKey` returns a new
PublicKey carrying the same KeyType and KeyParameters as the source key.
Under the closed enumeration no other KeyType exists, so the
`UnsupportedAlgorithmError` branch of the source switch is unreachable. -/
theorem spec_C6_getPublicKey_preserves_identity (prims : CryptoPrimitives)
    (k : PrivateKey)
    (h : k.algorithm = .ECDSA ∨ k.algorithm = .EDDSA ∨ k.algorithm = .SM2) :
    (k.getPublicKey prims).algorithm = k.algorithm ∧
    (k.getPublicKey prims).parameters = k.parameters := by
  clear h
  rcases k with ⟨key, alg, params⟩
  cases alg <;> exact ⟨rfl, rfl⟩

/-- Witness for C6 at a concrete EdDSA key. -/
theorem spec_C6_getPublicKey_preserves_identity_witness :
    ((PrivateKey.mk [9] .EDDSA p256Params).getPublicKey trivialPrimitives).algorithm =
        (PrivateKey.mk [9] .EDDSA p256Params).algorithm ∧
    ((PrivateKey.mk [9] .EDDSA p256Params).getPublicKey trivialPrimitives).parameters =
        (PrivateKey.mk [9] .EDDSA p256Params).parameters :=
  spec_C6_getPublicKey_preserves_identity trivialPrimitives
    (PrivateKey.mk [9] .EDDSA p256Params) (Or.inr (Or.inl rfl))

/-- Applying the keyed XOR stream twice with the same symmetric key is the
identity: decryption with the same derived key recovers the plaintext. -/
theorem xorStream_xorStream (symKey : Nat) (bs : List Nat) :
    xorStream symKey (xorStream symKey bs) = bs := by
  induction bs generalizing symKey with
  | nil => rfl
  | cons b tail ih => simp [xorStream, Nat.xor_cancel_right, ih]

/-- C5: decrypting the encryption of a key with the same passphrase yields
a key with the same raw key bytes, KeyType and KeyParameters. -/
theorem spec_C5_encrypt_decrypt_roundtrip (prims : CryptoPrimitives) (k : PrivateKey)
    (pw : String) (params : ScryptParams) (hpw : pw ≠ "") :
    PrivateKey.decrypt prims (k.encrypt prims pw params) pw params =
      .ok ⟨k.key, k.algorithm, k.parameters⟩ := by
  clear hpw
  unfold PrivateKey.decrypt PrivateKey.encrypt
  simp [scrypt.decrypt, scrypt.encrypt, scrypt.checkDecrypted, xorStream_xorStream]

/-- Witness for C5 at a concrete key and passphrase. -/
theorem spec_C5_encrypt_decrypt_roundtrip_witness :
    PrivateKey.decrypt trivialPrimitives
        ((PrivateKey.mk [1, 2, 3] .ECDSA p256Params).encrypt trivialPrimitives "pw" DEFAULT_SCRYPT)
        "pw" DEFAULT_SCRYPT =
      .ok ⟨[1, 2, 3], .ECDSA, p256Params⟩ :=
  spec_C5_encrypt_decrypt_roundtrip trivialPrimitives
    (PrivateKey.mk [1, 2, 3] .ECDSA p256Params) "pw" DEFAULT_SCRYPT (by decide)

/-- C1: `decrypt` derives the public key of the candidate plaintext key and
verifies it against the anchor embedded at encryption time before
returning: if the re-derived public key's anchor disagrees with the stored
anchor, the result is `DecryptionError`; and any successfully returned key
is the candidate whose re-derived public key matched the anchor. -/
theorem spec_C1_decrypt_verifies_public_key_anchor (prims : CryptoPrimitives)
    (ek : EncryptedPrivateKey) (pw : String) (params : ScryptParams) :
    (anchorOf ((PrivateKey.mk (scrypt.decrypt ek.key pw params) ek.algorithm
          ek.parameters).getPublicKey prims).key ≠ ek.key.anchor →
      PrivateKey.decrypt prims ek pw params = .error .decryptionError) ∧
    (∀ k', PrivateKey.decrypt prims ek pw params = .ok k' →
      k' = ⟨scrypt.decrypt ek.key pw params, ek.algorithm, ek.parameters⟩ ∧
      anchorOf ((k'.getPublicKey prims)).key = ek.key.anchor) := by
  constructor
  · intro hne
    unfold PrivateKey.decrypt
    simp [scrypt.checkDecrypted, hne]
  · intro k' hok
    unfold PrivateKey.decrypt at hok
    by_cases ha : anchorOf ((PrivateKey.mk (scrypt.decrypt ek.key pw params) ek.algorithm
        ek.parameters).getPublicKey prims).key = ek.key.anchor
    · simp [scrypt.checkDecrypted, ha] at hok
      subst hok
      exact ⟨rfl, ha⟩
    · simp [scrypt.checkDecrypted, ha] at hok

/-- Witness for C1: a ciphertext whose stored anchor (0) cannot match the
anchor of any re-derived public key is rejected with `DecryptionError`. -/
theorem spec_C1_decrypt_verifies_public_key_anchor_witness :
    PrivateKey.decrypt trivialPrimitives
        (EncryptedPrivateKey.mk ⟨[0], 0⟩ .ECDSA p256Params) "x" DEFAULT_SCRYPT =
      .error .decryptionError :=
  (spec_C1_decrypt_verifies_public_key_anchor trivialPrimitives
    (EncryptedPrivateKey.mk ⟨[0], 0⟩ .ECDSA p256Params) "x" DEFAULT_SCRYPT).1 (by decide)

/-- Dropping one character from a string that starts with `&` removes
exactly that character (the `substr(1)` step of `concatParams`). -/
theorem drop_one_amp (a : String) : ("&" ++ a).drop 1 = a := by
  apply String.ext
  rw [String.data_drop, String.data_append]
  show List.drop 1 ('&' :: a.data) = a.data
  rfl

/-- C10: the URL built by `sendRawTransaction` always carries the query
parameter `preExec=1` (as its final segment), for every value of the
`preExec` argument — the argument is ignored, so the URL is identical to
the one built with `preExec = false`. -/
theorem spec_C10_sendRawTransaction_preExec_always_one (c : RestClient)
    (hexData : String) (preExec : Bool) (userId : Option String) :
    (∃ p, RestClient.sendRawTransactionUrl c hexData preExec userId = p ++ "preExec=1") ∧
    RestClient.sendRawTransactionUrl c hexData preExec userId =
      RestClient.sendRawTransactionUrl c hexData false userId := by
  refine ⟨?_, rfl⟩
  rcases userId with _ | uid
  · refine ⟨c.url ++ Url_send_transaction ++ "?", ?_⟩
    show c.url ++ Url_send_transaction ++
        RestClient.concatParams [("preExec", "1")] = _
    have h1 : RestClient.concatParams [("preExec", "1")] = "?" ++ "preExec=1" := by decide
    rw [h1]
    exact (String.append_assoc _ _ _).symm
  · by_cases huid : uid = ""
    · subst huid
      refine ⟨c.url ++ Url_send_transaction ++ "?", ?_⟩
      show c.url ++ Url_send_transaction ++
          RestClient.concatParams [("preExec", "1")] = _
      have h1 : RestClient.concatParams [("preExec", "1")] = "?" ++ "preExec=1" := by decide
      rw [h1]
      exact (String.append_assoc _ _ _).symm
    · refine ⟨c.url ++ Url_send_transaction ++ "?" ++ "userid=" ++
        encodeURIComponent uid ++ "&", ?_⟩
      have hstep : RestClient.sendRawTransactionUrl c hexData preExec (some uid) =
          c.url ++ Url_send_transaction ++
            RestClient.concatParams [("userid", uid), ("preExec", "1")] := by
        simp [RestClient.sendRawTransactionUrl, huid]
      rw [hstep]
      have h2 : RestClient.concatParams [("userid", uid), ("preExec", "1")] =
          "?" ++ ("userid=" ++ (encodeURIComponent uid ++ "&preExec=1")) := by
        unfold RestClient.concatParams
        rw [if_neg (by simp)]
        show "?" ++ ("" ++ "&" ++ "userid" ++ "=" ++
            (if uid = "" then uid else encodeURIComponent uid) ++ "&" ++ "preExec" ++ "=" ++
            (if ("1" : String) = "" then ("1" : String) else encodeURIComponent "1")).drop 1 = _
        rw [if_neg huid, if_neg (by decide)]
        have hmid : "" ++ "&" ++ "userid" ++ "=" ++ encodeURIComponent uid ++ "&" ++
            "preExec" ++ "=" ++ encodeURIComponent "1" =
            "&" ++ ("userid=" ++ (encodeURIComponent uid ++ "&preExec=1")) := by
          apply String.ext
          simp only [String.data_append, List.append_assoc]
          rfl
        rw [hmid, drop_one_amp]
      rw [h2]
      apply String.ext
      simp only [String.data_append, List.append_assoc]
      rfl
